import Mathlib

/-!
Verification of the contact-form backend core (src/routes/email.js):
input sanitization, field validation, the sliding-window rate limiter,
outbound message construction with HTML escaping, and the request
handler with its response classification.

Modelling conventions: JavaScript strings are lists of characters; the
Map holding rate-limit timestamps is an association list; the settled
result of the dispatch race (sendMail against the 30 second timer) is a
parameter of the handler; the current clock value is a natural number
parameter.
-/

namespace PortfolioBackend

/-- Strings of the JavaScript runtime, modelled as lists of characters. -/
abbrev JStr := List Char

/-- Whitespace class used by the string trim operations. -/
def isWS (c : Char) : Bool := c.isWhitespace

/-- Removal of leading whitespace, the left half of trim. -/
def trimLeft (s : JStr) : JStr := s.dropWhile isWS

/-- Removal of trailing whitespace, the right half of trim. -/
def trimRight (s : JStr) : JStr := (s.reverse.dropWhile isWS).reverse

/-- Embedding of the string trim method: strip whitespace at both ends. -/
def trimL (s : JStr) : JStr := trimRight (trimLeft s)

/-- Embedding of toLowerCase, applied character by character. -/
def toLowerStr (s : JStr) : JStr := s.map Char.toLower

/-- A JavaScript value arriving in a request-body field: either a string
or some non-string value (undefined, number, object, and so on). -/
inductive JSVal where
  | str (s : JStr)
  | nonString
deriving DecidableEq

/-- Embedding of sanitizeInput (routes/email.js lines 27-30): non-string
input becomes the empty string; otherwise trim, then substring(0, 5000). -/
def sanitizeInput : JSVal → JStr
  | .str s => (trimL s).take 5000
  | .nonString => []

/-- Character class admissible inside each block of the email regular
expression: everything that is neither whitespace nor the at sign. -/
def noWsNoAt (l : JStr) : Bool := l.all (fun c => !(isWS c) && !(c == '@'))

/-- Test that the candidate domain block has a dot that is neither its
first nor its last character, as the pattern requires between its last
two one-or-more blocks. -/
def internalDot (domain : JStr) : Bool := ((domain.drop 1).dropLast).contains '.'

/-- Executable semantics of the anchored regular expression of
routes/email.js line 22: one or more characters that are neither
whitespace nor the at sign, an at sign, the same class one or more
times, a dot, the same class one or more times.  The local part is the
maximal at-free segment; the rest must start with the at sign and its
tail must be free of whitespace and at signs and carry an internal dot. -/
def emailRegexTest (s : JStr) : Bool :=
  let locPart := s.takeWhile (fun c => c != '@')
  match s.dropWhile (fun c => c != '@') with
  | [] => false
  | d :: domain =>
      (d == '@') && (!(locPart.isEmpty)) && noWsNoAt locPart &&
        noWsNoAt domain && internalDot domain

/-- Embedding of validateEmail (routes/email.js lines 19-24): falsy
input is rejected, then the trimmed lowercased string must match the
regular expression and be at most 254 characters long. -/
def validateEmail (email : JStr) : Bool :=
  if email.isEmpty then false
  else
    let trimmedEmail := toLowerStr (trimL email)
    emailRegexTest trimmedEmail && decide (trimmedEmail.length ≤ 254)

/-- Entity replacement for one character, the map of escapeHtml
(routes/email.js lines 8-14). -/
def escapeChar (c : Char) : JStr :=
  if c = '&' then "&amp;".toList
  else if c = '<' then "&lt;".toList
  else if c = '>' then "&gt;".toList
  else if c = Char.ofNat 34 then "&quot;".toList
  else if c = Char.ofNat 39 then "&#039;".toList
  else [c]

/-- Embedding of escapeHtml (routes/email.js lines 7-16): global
replacement of the five markup-significant characters by entities. -/
def escapeHtml (text : JStr) : JStr := text.flatMap escapeChar

/-- Global replacement of newline characters by the break tag, as
applied to the escaped message (routes/email.js line 204). -/
def newlineToBr (s : JStr) : JStr :=
  s.flatMap (fun c => if c = Char.ofNat 10 then "<br>".toList else [c])

/-- The in-memory rate-limit map, an association list from client
identifier to the recorded request timestamps. -/
abbrev Ledger := List (JStr × List Nat)

/-- Lookup in the rate-limit map, mirroring Map.get and Map.has. -/
def ledgerGet : Ledger → JStr → Option (List Nat)
  | [], _ => none
  | (k, v) :: rest, id => if k = id then some v else ledgerGet rest id

/-- Update in the rate-limit map, mirroring Map.set: replace the value
in place when the key exists, append a new entry otherwise. -/
def ledgerSet : Ledger → JStr → List Nat → Ledger
  | [], id, v => [(id, v)]
  | (k, w) :: rest, id, v =>
      if k = id then (id, v) :: rest else (k, w) :: ledgerSet rest id v

/-- Embedding of checkRateLimit (routes/email.js lines 71-89).  The
handler calls it with maxRequests 5 and windowMs 3600000.  An absent key
is first initialised to the empty list; the stored timestamps are
filtered to those within the window ending at now; when at least
maxRequests remain the call denies without further changes, otherwise
now is appended and the filtered list is stored back. -/
def checkRateLimit (L : Ledger) (identifier : JStr) (maxRequests windowMs now : Nat) :
    Bool × Ledger :=
  let L1 := match ledgerGet L identifier with
    | some _ => L
    | none => ledgerSet L identifier []
  let requests := (ledgerGet L1 identifier).getD []
  let recentRequests := requests.filter (fun time => decide (now - time < windowMs))
  if maxRequests ≤ recentRequests.length then
    (false, L1)
  else
    (true, ledgerSet L1 identifier (recentRequests ++ [now]))

/-- Response text of the body-shape rejection (routes/email.js line 113). -/
def msgBodyJSON : JStr := "Request body must be valid JSON".toList

/-- Response text of the name presence check (line 128). -/
def msgNameRequired : JStr := "Name is required".toList

/-- Response text of the email presence check (line 135). -/
def msgEmailRequired : JStr := "Email is required".toList

/-- Response text of the name minimum length check (line 142). -/
def msgNameTooShort : JStr := "Name must be at least 2 characters long".toList

/-- Response text of the name maximum length check (line 149). -/
def msgNameTooLong : JStr := "Name must be less than 100 characters".toList

/-- Response text of the email format check (line 156). -/
def msgEmailInvalid : JStr := "Please provide a valid email address".toList

/-- Response text of the message presence check (line 163). -/
def msgMessageRequired : JStr := "Message is required".toList

/-- Response text of the message minimum length check (line 170). -/
def msgMessageTooShort : JStr := "Message must be at least 10 characters long".toList

/-- Response text of the message maximum length check (line 177). -/
def msgMessageTooLong : JStr := "Message must be less than 5000 characters".toList

/-- Response text of the rate-limit rejection (line 185). -/
def msgRateLimited : JStr := "Too many requests. Please try again later.".toList

/-- Response text of the missing-credentials rejection (line 194). -/
def msgConfigError : JStr := "Server configuration error. Please try again later.".toList

/-- Response text for backend authentication failures (line 279). -/
def msgAuthError : JStr := "Authentication error. Please check Gmail credentials.".toList

/-- Response text for connection-refused and timed-out error codes
(line 287). -/
def msgUnavailable : JStr := "Service temporarily unavailable. Please try again later.".toList

/-- Response text of the generic dispatch-failure fallback (line 294). -/
def msgSendFailed : JStr := "Failed to send email. Please try again later.".toList

/-- Response text of the success path (line 264). -/
def msgSuccess : JStr := "Email sent successfully! I will get back to you soon.".toList

/-- The validation cascade of the handler (routes/email.js lines
125-179), applied to the already sanitized and re-trimmed fields: each
check returns its specific message and later checks run only when every
earlier check passed. -/
def firstValidationError (name email message : JStr) : Option JStr :=
  if name = [] then some msgNameRequired
  else if email = [] then some msgEmailRequired
  else if name.length < 2 then some msgNameTooShort
  else if 100 < name.length then some msgNameTooLong
  else if validateEmail email = false then some msgEmailInvalid
  else if message = [] then some msgMessageRequired
  else if message.length < 10 then some msgMessageTooShort
  else if 5000 < message.length then some msgMessageTooLong
  else none

/-- The outbound message handed to sendMail (routes/email.js lines
206-250). -/
structure MailOptions where
  fromAddr : JStr
  toAddr : JStr
  replyTo : JStr
  subject : JStr
  html : JStr
  text : JStr
deriving DecidableEq

/-- HTML template text before the rendered name (lines 211-219). -/
def htmlPart1 : JStr := "\n        <div style=\"font-family: Arial, sans-serif; max-width: 600px; margin: 0 auto;\">\n          <h2 style=\"color: #333; border-bottom: 2px solid #0066cc; padding-bottom: 10px;\">\n            New Message from Portfolio Contact Form\n          </h2>\n          <div style=\"margin: 20px 0;\">\n            <p style=\"margin: 10px 0;\">\n              <strong style=\"color: #333;\">Name:</strong> \n              <span style=\"color: #666;\">".toList

/-- HTML template text between the rendered name and email (lines
219-223). -/
def htmlPart2 : JStr := "</span>\n            </p>\n            <p style=\"margin: 10px 0;\">\n              <strong style=\"color: #333;\">Email:</strong> \n              <span style=\"color: #666;\">".toList

/-- HTML template text between the rendered email and message (lines
223-229). -/
def htmlPart3 : JStr := "</span>\n            </p>\n            <p style=\"margin: 10px 0;\">\n              <strong style=\"color: #333;\">Message:</strong>\n            </p>\n            <div style=\"background-color: #f5f5f5; padding: 15px; border-left: 4px solid #0066cc; margin: 10px 0; color: #333;\">\n              ".toList

/-- HTML template text between the rendered message and the date (lines
229-235). -/
def htmlPart4 : JStr := "\n            </div>\n          </div>\n          <hr style=\"border: none; border-top: 1px solid #ddd; margin: 20px 0;\">\n          <p style=\"color: #999; font-size: 12px; margin-top: 20px;\">\n            This message was sent from your portfolio contact form. \n            <br>Sent on ".toList

/-- HTML template text after the date (lines 235-238). -/
def htmlPart5 : JStr := "\n          </p>\n        </div>\n      ".toList

/-- Plain-text template text before the raw name (lines 239-240). -/
def textPart1 : JStr := "\nName: ".toList

/-- Plain-text template text between the raw name and email (line 241). -/
def textPart2 : JStr := "\nEmail: ".toList

/-- Plain-text template text between the raw email and message (lines
242-244). -/
def textPart3 : JStr := "\n\nMessage:\n".toList

/-- Plain-text template text between the raw message and the date (lines
245-248). -/
def textPart4 : JStr := "\n\n---\nThis message was sent from your portfolio contact form.\nSent on ".toList

/-- Plain-text template text after the date (lines 248-249). -/
def textPart5 : JStr := "\n      ".toList

/-- Subject prefix of the outbound message (line 210). -/
def subjectPart : JStr := "New Portfolio Contact from ".toList

/-- Construction of the outbound message (routes/email.js lines
202-250): name, email and the newline-converted message are HTML-escaped
into the HTML body, while the plain-text body interpolates the raw
sanitized values; the fixed account is sender and recipient and the
submitter is the reply-to address. -/
def mkMailOptions (gmailEmail name email message sentOn : JStr) : MailOptions :=
  let escapedName := escapeHtml name
  let escapedEmail := escapeHtml email
  let escapedMessage := newlineToBr (escapeHtml message)
  { fromAddr := gmailEmail
    toAddr := gmailEmail
    replyTo := email
    subject := subjectPart ++ escapedName
    html := htmlPart1 ++ escapedName ++ htmlPart2 ++ escapedEmail ++ htmlPart3 ++
      escapedMessage ++ htmlPart4 ++ sentOn ++ htmlPart5
    text := textPart1 ++ name ++ textPart2 ++ email ++ textPart3 ++ message ++
      textPart4 ++ sentOn ++ textPart5 }

/-- The environment variables the handler reads: the Gmail credential
pair and the development flag. -/
structure Env where
  gmailEmail : Option JStr
  gmailPassword : Option JStr
  isDev : Bool

/-- Falsiness of an environment variable: absent or the empty string. -/
def envMissing : Option JStr → Bool
  | none => true
  | some s => s.isEmpty

/-- A JSON response of the handler: status code, success flag, message,
and the optional diagnostic error field emitted in development mode. -/
structure Response where
  status : Nat
  success : Bool
  message : JStr
  errorField : Option JStr
deriving DecidableEq

/-- The settled result of the race between sendMail and the 30 second
timer (routes/email.js lines 253-258): success, or a rejection carrying
an optional error code and an error message. -/
inductive SendOutcome where
  | ok
  | fail (code : Option JStr) (errMsg : JStr)
deriving DecidableEq

/-- The rejection produced when the timeout branch of the race wins
(line 256): an Error with the fixed message and no code property. -/
def raceTimeoutOutcome : SendOutcome := .fail none ("Email send timeout".toList)

/-- The authentication failure code tested at line 276. -/
def codeEAUTH : JStr := "EAUTH".toList

/-- The connection-refused code tested at line 284. -/
def codeECONNREFUSED : JStr := "ECONNREFUSED".toList

/-- The timed-out code tested at line 284. -/
def codeETIMEDOUT : JStr := "ETIMEDOUT".toList

/-- The catch block of the handler (routes/email.js lines 267-297):
EAUTH maps to 500 with the authentication message, ECONNREFUSED and
ETIMEDOUT map to 503 with the temporarily-unavailable message, and every
other rejection maps to 500 with the generic failure message; the
diagnostic field is attached only in development mode. -/
def classifyDispatchError (isDev : Bool) (code : Option JStr) (errMsg : JStr) : Response :=
  let errorDetails : Option JStr := if isDev then some errMsg else none
  match code with
  | some c =>
      if c = codeEAUTH then
        ⟨500, false, msgAuthError, errorDetails⟩
      else if c = codeECONNREFUSED ∨ c = codeETIMEDOUT then
        ⟨503, false, msgUnavailable, errorDetails⟩
      else ⟨500, false, msgSendFailed, errorDetails⟩
  | none => ⟨500, false, msgSendFailed, errorDetails⟩

/-- The three fields of a parsed request body. -/
structure ReqBody where
  name : JSVal
  email : JSVal
  message : JSVal
deriving DecidableEq

/-- Everything a handler run produces: the JSON response, the rate-limit
map after the run, and the mail options handed to sendMail when dispatch
was attempted. -/
structure HandlerResult where
  resp : Response
  ledger : Ledger
  dispatched : Option MailOptions
deriving DecidableEq

/-- Embedding of the send-email route handler (routes/email.js lines
105-298): body-shape check, sanitization of the three fields with the
extra trim and lowercasing of line 120-122, the validation cascade, the
rate-limit gate, the credential check, construction of the outbound
message, and classification of the dispatch outcome. -/
def sendEmailHandler (body : Option ReqBody) (clientIP : JStr) (env : Env) (L : Ledger)
    (now : Nat) (outcome : SendOutcome) (sentOn : JStr) : HandlerResult :=
  match body with
  | none => ⟨⟨400, false, msgBodyJSON, none⟩, L, none⟩
  | some b =>
    let name := trimL (sanitizeInput b.name)
    let email := toLowerStr (trimL (sanitizeInput b.email))
    let message := trimL (sanitizeInput b.message)
    match firstValidationError name email message with
    | some err => ⟨⟨400, false, err, none⟩, L, none⟩
    | none =>
      let rl := checkRateLimit L clientIP 5 3600000 now
      if rl.1 = false then
        ⟨⟨429, false, msgRateLimited, none⟩, rl.2, none⟩
      else if envMissing env.gmailEmail || envMissing env.gmailPassword then
        ⟨⟨500, false, msgConfigError, none⟩, rl.2, none⟩
      else
        let mo := mkMailOptions ((env.gmailEmail).getD []) name email message sentOn
        match outcome with
        | .ok => ⟨⟨200, true, msgSuccess, none⟩, rl.2, some mo⟩
        | .fail code errMsg => ⟨classifyDispatchError env.isDev code errMsg, rl.2, some mo⟩

/-- Spec-side character condition of the email shape: neither whitespace
nor the at sign. -/
abbrev GoodChar (x : Char) : Prop := ¬ x.isWhitespace ∧ x ≠ '@'

/-- Spec-side reading of the email pattern: a decomposition into three
non-empty blocks of admissible characters joined by one at sign and one
dot. -/
def EmailShape (s : JStr) : Prop :=
  ∃ a b c : JStr, s = a ++ '@' :: (b ++ '.' :: c) ∧ a ≠ [] ∧ b ≠ [] ∧ c ≠ [] ∧
    (∀ x ∈ a, GoodChar x) ∧ (∀ x ∈ b, GoodChar x) ∧ (∀ x ∈ c, GoodChar x)

/-- The error taxonomy of the validation cascade, one constructor per
rejection reason of section 7 of the specification. -/
inductive ValidationError where
  | nameRequired | nameTooShort | nameTooLong | emailRequired | emailInvalid
  | messageRequired | messageTooShort | messageTooLong
deriving DecidableEq

/-- The response text carried by each validation error. -/
def errMessage : ValidationError → JStr
  | .nameRequired => msgNameRequired
  | .nameTooShort => msgNameTooShort
  | .nameTooLong => msgNameTooLong
  | .emailRequired => msgEmailRequired
  | .emailInvalid => msgEmailInvalid
  | .messageRequired => msgMessageRequired
  | .messageTooShort => msgMessageTooShort
  | .messageTooLong => msgMessageTooLong

/-- Modelled from the spec: the validation order the claim asserts, name
presence, then name length, then email presence, then email format, then
message presence, then message length, with bounds written as the
intervals of section 4.1. -/
def claimOrderValidate (name email message : JStr) : Option ValidationError :=
  if name = [] then some .nameRequired
  else if ¬ (2 ≤ name.length ∧ name.length ≤ 100) then
    (if name.length < 2 then some .nameTooShort else some .nameTooLong)
  else if email = [] then some .emailRequired
  else if ¬ (validateEmail email = true) then some .emailInvalid
  else if message = [] then some .messageRequired
  else if ¬ (10 ≤ message.length ∧ message.length ≤ 5000) then
    (if message.length < 10 then some .messageTooShort else some .messageTooLong)
  else none

/-- Modelled from the spec with the one correction the code forces: the
email presence check precedes the name length checks; the rest of the
order is unchanged. -/
def amendedOrderValidate (name email message : JStr) : Option ValidationError :=
  if name = [] then some .nameRequired
  else if email = [] then some .emailRequired
  else if ¬ (2 ≤ name.length ∧ name.length ≤ 100) then
    (if name.length < 2 then some .nameTooShort else some .nameTooLong)
  else if ¬ (validateEmail email = true) then some .emailInvalid
  else if message = [] then some .messageRequired
  else if ¬ (10 ≤ message.length ∧ message.length ≤ 5000) then
    (if message.length < 10 then some .messageTooShort else some .messageTooLong)
  else none

/-- Scenario runner for the rate-limit claims: perform one allow call
per listed timestamp with the configured limit of 5 per 3600000
milliseconds, collecting the verdicts and threading the map. -/
def allowSeq : Ledger → JStr → List Nat → List Bool × Ledger
  | L, _, [] => ([], L)
  | L, id, t :: ts =>
    let r := checkRateLimit L id 5 3600000 t
    let rest := allowSeq r.2 id ts
    (r.1 :: rest.1, rest.2)

/-- Boolean test that the second list starts with the first. -/
def strStartsWith : JStr → JStr → Bool
  | [], _ => true
  | _ :: _, [] => false
  | p :: ps, c :: cs => (p == c) && strStartsWith ps cs

/-- Boolean substring test: some suffix of the first list starts with
the second list. -/
def strContains : JStr → JStr → Bool
  | [], pat => strStartsWith pat []
  | s@(_ :: t), pat => strStartsWith pat s || strContains t pat

lemma dropWhile_cons_of_neg (p : Char → Bool) (a : Char) (l : JStr) (h : p a = false) :
    List.dropWhile p (a :: l) = a :: l := by
  rw [List.dropWhile_cons, h]; simp

lemma dropWhile_cons_of_pos (p : Char → Bool) (a : Char) (l : JStr) (h : p a = true) :
    List.dropWhile p (a :: l) = List.dropWhile p l := by
  rw [List.dropWhile_cons, h]; simp

lemma trimLeft_cons_nonws (c : Char) (l : JStr) (h : isWS c = false) :
    trimLeft (c :: l) = c :: l := dropWhile_cons_of_neg _ _ _ h

lemma trimRight_append_nonws (l : JStr) (c : Char) (h : isWS c = false) :
    trimRight (l ++ [c]) = l ++ [c] := by
  unfold trimRight
  rw [List.reverse_append, List.reverse_singleton, List.singleton_append,
      dropWhile_cons_of_neg _ _ _ h, List.reverse_cons, List.reverse_reverse]

lemma trimRight_append_ws (l : JStr) (c : Char) (h : isWS c = true) :
    trimRight (l ++ [c]) = trimRight l := by
  unfold trimRight
  rw [List.reverse_append, List.reverse_singleton, List.singleton_append,
      dropWhile_cons_of_pos _ _ _ h]

lemma dropWhile_dropWhile (p : Char → Bool) (l : JStr) :
    (l.dropWhile p).dropWhile p = l.dropWhile p := by
  induction l with
  | nil => rfl
  | cons a t ih =>
    by_cases h : p a = true
    · rw [dropWhile_cons_of_pos _ _ _ h, ih]
    · have h' : p a = false := by simpa using h
      rw [dropWhile_cons_of_neg _ _ _ h', dropWhile_cons_of_neg _ _ _ h']

lemma dropWhile_head_false (p : Char → Bool) (l : JStr) (c : Char) (t : JStr)
    (h : l.dropWhile p = c :: t) : p c = false := by
  induction l with
  | nil => simp at h
  | cons a s ih =>
    by_cases ha : p a = true
    · rw [dropWhile_cons_of_pos _ _ _ ha] at h; exact ih h
    · have ha' : p a = false := by simpa using ha
      rw [dropWhile_cons_of_neg _ _ _ ha'] at h
      cases h; exact ha'

lemma dropWhile_append_singleton_nonws (p : Char → Bool) (c : Char) (h : p c = false) :
    ∀ xs : JStr, (xs ++ [c]).dropWhile p = xs.dropWhile p ++ [c] := by
  intro xs
  induction xs with
  | nil => simp [dropWhile_cons_of_neg _ _ _ h]
  | cons a t ih =>
    by_cases ha : p a = true
    · rw [List.cons_append, dropWhile_cons_of_pos _ _ _ ha, ih,
        dropWhile_cons_of_pos _ _ _ ha]
    · have ha' : p a = false := by simpa using ha
      rw [List.cons_append, dropWhile_cons_of_neg _ _ _ ha',
        dropWhile_cons_of_neg _ _ _ ha', List.cons_append]

lemma trimRight_cons_nonws (c : Char) (t : JStr) (h : isWS c = false) :
    trimRight (c :: t) = c :: trimRight t := by
  unfold trimRight
  rw [List.reverse_cons, dropWhile_append_singleton_nonws _ _ h, List.reverse_append,
    List.reverse_singleton, List.singleton_append]

lemma trimRight_trimRight (l : JStr) : trimRight (trimRight l) = trimRight l := by
  unfold trimRight
  rw [List.reverse_reverse, dropWhile_dropWhile]

lemma trimLeft_trimL (l : JStr) : trimLeft (trimL l) = trimL l := by
  unfold trimL
  cases hl : trimLeft l with
  | nil => rfl
  | cons c t =>
    have hc : isWS c = false := dropWhile_head_false _ _ _ _ hl
    rw [trimRight_cons_nonws _ _ hc]
    exact trimLeft_cons_nonws _ _ hc

lemma trimL_trimL (l : JStr) : trimL (trimL l) = trimL l := by
  conv_lhs => rw [trimL, trimLeft_trimL]
  show trimRight (trimRight (trimLeft l)) = trimL l
  rw [trimRight_trimRight]; rfl

def charA : JStr := List.replicate 4999 'a'

lemma charA_cons : charA = 'a' :: List.replicate 4998 'a' := by
  show List.replicate 4999 'a' = _
  rw [show (4999 : Nat) = 4998 + 1 from by norm_num, List.replicate_succ]

lemma charA_snoc : charA = List.replicate 4998 'a' ++ ['a'] := by
  show List.replicate 4999 'a' = _
  rw [show (4999 : Nat) = 4998 + 1 from by norm_num, List.replicate_succ']

lemma charA_len : charA.length = 4999 := List.length_replicate 4999 'a'

def s0 : JStr := charA ++ [' ', 'b']

lemma trimLeft_charA_append (t : JStr) : trimLeft (charA ++ t) = charA ++ t := by
  rw [charA_cons, List.cons_append, trimLeft_cons_nonws _ _ (by decide)]

lemma trimRight_charA : trimRight charA = charA := by
  rw [charA_snoc, trimRight_append_nonws _ _ (by decide)]

lemma trimL_s0 : trimL s0 = s0 := by
  unfold trimL s0
  rw [trimLeft_charA_append]
  rw [show ([' ', 'b'] : JStr) = [' '] ++ ['b'] from rfl, ← List.append_assoc]
  rw [trimRight_append_nonws _ _ (by decide)]

lemma sanitize_s0 : sanitizeInput (.str s0) = charA ++ [' '] := by
  show (trimL s0).take 5000 = charA ++ [' ']
  rw [trimL_s0]
  unfold s0
  rw [List.take_append_eq_append_take]
  rw [List.take_of_length_le (by rw [charA_len]; norm_num)]
  rw [charA_len]
  norm_num

lemma sanitize_sanitize_s0 : sanitizeInput (.str (sanitizeInput (.str s0))) = charA := by
  rw [sanitize_s0]
  show (trimL (charA ++ [' '])).take 5000 = charA
  unfold trimL
  rw [trimLeft_charA_append, trimRight_append_ws _ _ (by decide), trimRight_charA]
  exact List.take_of_length_le (by rw [charA_len]; norm_num)

lemma noWsNoAt_iff (l : JStr) : noWsNoAt l = true ↔ ∀ x ∈ l, GoodChar x := by
  simp [noWsNoAt, List.all_eq_true, isWS, GoodChar]

lemma internalDot_iff (l : JStr) :
    internalDot l = true ↔ ∃ b c : JStr, l = b ++ '.' :: c ∧ b ≠ [] ∧ c ≠ [] := by
  constructor
  · intro h
    have hmem : '.' ∈ (l.drop 1).dropLast := by simpa [internalDot] using h
    match l, hmem with
    | x :: t, hmem =>
      have hmem' : '.' ∈ t.dropLast := by simpa using hmem
      have hne : t ≠ [] := by
        intro h0; rw [h0] at hmem'; simp at hmem'
      obtain ⟨s1, s2, hsp⟩ := List.append_of_mem hmem'
      have ht : t.dropLast ++ [t.getLast hne] = t := List.dropLast_append_getLast hne
      refine ⟨x :: s1, s2 ++ [t.getLast hne], ?_, by simp, by simp⟩
      conv_lhs => rw [← ht, hsp]
      simp
  · rintro ⟨b, c, rfl, hb, hc⟩
    match b, hb with
    | bx :: b', _ =>
      have hdrop : ((bx :: b') ++ '.' :: c).drop 1 = b' ++ '.' :: c := rfl
      have hc' : c.dropLast ++ [c.getLast hc] = c := List.dropLast_append_getLast hc
      have : (b' ++ '.' :: c).dropLast = b' ++ '.' :: c.dropLast := by
        conv_lhs => rw [← hc']
        rw [show b' ++ '.' :: (c.dropLast ++ [c.getLast hc])
              = (b' ++ '.' :: c.dropLast) ++ [c.getLast hc] by simp]
        exact List.dropLast_concat
      simp only [internalDot, hdrop, this]
      simp

lemma takeWhile_append_cons (p : Char → Bool) (d : Char) (r : JStr) (hd : p d = false) :
    ∀ a : JStr, (∀ x ∈ a, p x = true) →
      (a ++ d :: r).takeWhile p = a ∧ (a ++ d :: r).dropWhile p = d :: r := by
  intro a
  induction a with
  | nil =>
    intro _
    constructor
    · show (d :: r).takeWhile p = []
      rw [List.takeWhile_cons, hd]; simp
    · exact dropWhile_cons_of_neg _ _ _ hd
  | cons x t ih =>
    intro hall
    have hx : p x = true := hall x (by simp)
    have ht := ih (fun y hy => hall y (by simp [hy]))
    constructor
    · rw [List.cons_append, List.takeWhile_cons, hx]
      simp only [if_pos]
      rw [ht.1]
    · rw [List.cons_append, dropWhile_cons_of_pos _ _ _ hx, ht.2]

lemma emailRegexTest_iff (s : JStr) : emailRegexTest s = true ↔ EmailShape s := by
  constructor
  · intro h
    simp only [emailRegexTest] at h
    cases hrest : s.dropWhile (fun c => c != '@') with
    | nil => rw [hrest] at h; simp at h
    | cons d domain =>
      rw [hrest] at h
      simp only [Bool.and_eq_true, beq_iff_eq] at h
      obtain ⟨⟨⟨⟨hd, hne⟩, hlocw⟩, hdomw⟩, hdot⟩ := h
      subst hd
      obtain ⟨b, c, hdom, hb, hc⟩ := (internalDot_iff domain).mp hdot
      refine ⟨s.takeWhile (fun c => c != '@'), b, c, ?_, ?_, hb, hc, ?_, ?_, ?_⟩
      · rw [← hdom]
        conv_lhs => rw [← List.takeWhile_append_dropWhile (fun c => c != '@') s, hrest]
      · intro h0; rw [h0] at hne; simp at hne
      · exact fun x hx => (noWsNoAt_iff _).mp hlocw x hx
      · exact fun x hx => (noWsNoAt_iff _).mp hdomw x (by rw [hdom]; simp [hx])
      · exact fun x hx => (noWsNoAt_iff _).mp hdomw x (by rw [hdom]; simp [hx])
  · rintro ⟨a, b, c, rfl, ha, hb, hc, hga, hgb, hgc⟩
    have hall : ∀ x ∈ a, (x != '@') = true := by
      intro x hx
      have := (hga x hx).2
      simpa using this
    obtain ⟨htake, hdrop⟩ :=
      takeWhile_append_cons (fun c => c != '@') '@' (b ++ '.' :: c) (by decide) a hall
    simp only [emailRegexTest]
    rw [hdrop, htake]
    simp only [Bool.and_eq_true, beq_iff_eq]
    refine ⟨⟨⟨⟨trivial, ?_⟩, ?_⟩, ?_⟩, ?_⟩
    · simpa using ha
    · exact (noWsNoAt_iff _).mpr hga
    · refine (noWsNoAt_iff _).mpr ?_
      intro x hx
      rcases List.mem_append.mp hx with hxb | hxc
      · exact hgb x hxb
      · rcases List.mem_cons.mp hxc with rfl | hxc'
        · exact ⟨by decide, by decide⟩
        · exact hgc x hxc'
    · exact (internalDot_iff _).mpr ⟨b, c, rfl, hb, hc⟩

lemma EmailShape_nil : ¬ EmailShape [] := by
  rintro ⟨a, b, c, h, -⟩
  cases a <;> simp at h

lemma validateEmail_iff (s : JStr) :
    validateEmail s = true ↔
      EmailShape (toLowerStr (trimL s)) ∧ (toLowerStr (trimL s)).length ≤ 254 := by
  by_cases hs : s.isEmpty
  · have : s = [] := by simpa using hs
    subst this
    simp only [validateEmail]
    simp only [List.isEmpty_nil, if_true]
    constructor
    · intro h; simp at h
    · rintro ⟨h, -⟩
      exact absurd h (by
        show ¬ EmailShape (toLowerStr (trimL []))
        have : toLowerStr (trimL []) = [] := rfl
        rw [this]; exact EmailShape_nil)
  · simp only [validateEmail, hs, Bool.false_eq_true, if_false, Bool.and_eq_true,
      decide_eq_true_iff]
    rw [emailRegexTest_iff]


lemma ledgerGet_set_self (L : Ledger) (k : JStr) (v : List Nat) :
    ledgerGet (ledgerSet L k v) k = some v := by
  induction L with
  | nil => simp [ledgerSet, ledgerGet]
  | cons p rest ih =>
    by_cases h : p.1 = k
    · simp [ledgerSet, ledgerGet, h]
    · simp [ledgerSet, ledgerGet, h, ih]

lemma ledgerSet_set (L : Ledger) (k : JStr) (v w : List Nat) :
    ledgerSet (ledgerSet L k v) k w = ledgerSet L k w := by
  induction L with
  | nil => simp [ledgerSet]
  | cons p rest ih =>
    by_cases h : p.1 = k
    · simp [ledgerSet, h]
    · simp [ledgerSet, h, ih]

lemma filter_window_eq_self (l : List Nat) (w now : Nat) (h : ∀ t ∈ l, now - t < w) :
    l.filter (fun time => decide (now - time < w)) = l := by
  rw [List.filter_eq_self]
  intro a ha
  exact decide_eq_true (h a ha)

lemma filter_window_eq_nil (l : List Nat) (w now : Nat) (h : ∀ t ∈ l, ¬ (now - t < w)) :
    l.filter (fun time => decide (now - time < w)) = [] := by
  rw [List.filter_eq_nil_iff]
  intro a ha
  simpa using h a ha

lemma checkRateLimit_fresh (L : Ledger) (id : JStr) (max w now : Nat)
    (hget : ledgerGet L id = none) (hmax : 0 < max) :
    checkRateLimit L id max w now = (true, ledgerSet L id [now]) := by
  simp only [checkRateLimit, hget, ledgerGet_set_self, Option.getD_some, List.filter_nil,
    List.length_nil, List.nil_append]
  rw [if_neg (by omega), ledgerSet_set]

lemma checkRateLimit_allow (L : Ledger) (id : JStr) (max w now : Nat) (l : List Nat)
    (hget : ledgerGet L id = some l) (hfilt : ∀ t ∈ l, now - t < w)
    (hlen : l.length < max) :
    checkRateLimit L id max w now = (true, ledgerSet L id (l ++ [now])) := by
  simp only [checkRateLimit, hget, Option.getD_some]
  rw [filter_window_eq_self l w now hfilt]
  rw [if_neg (by omega)]

lemma checkRateLimit_allow_set (L : Ledger) (id : JStr) (max w now : Nat) (l : List Nat)
    (hfilt : ∀ t ∈ l, now - t < w) (hlen : l.length < max) :
    checkRateLimit (ledgerSet L id l) id max w now = (true, ledgerSet L id (l ++ [now])) := by
  rw [checkRateLimit_allow (ledgerSet L id l) id max w now l (ledgerGet_set_self L id l)
    hfilt hlen, ledgerSet_set]

lemma checkRateLimit_deny (L : Ledger) (id : JStr) (max w now : Nat) (l : List Nat)
    (hget : ledgerGet L id = some l) (hfilt : ∀ t ∈ l, now - t < w)
    (hlen : max ≤ l.length) :
    checkRateLimit L id max w now = (false, L) := by
  simp only [checkRateLimit, hget, Option.getD_some]
  rw [filter_window_eq_self l w now hfilt]
  rw [if_pos (by omega)]

lemma checkRateLimit_expired_set (L : Ledger) (id : JStr) (max w now : Nat) (l : List Nat)
    (hfilt : ∀ t ∈ l, ¬ (now - t < w)) (hmax : 0 < max) :
    checkRateLimit (ledgerSet L id l) id max w now = (true, ledgerSet L id [now]) := by
  simp only [checkRateLimit, ledgerGet_set_self, Option.getD_some]
  rw [filter_window_eq_nil l w now hfilt]
  simp only [List.length_nil, List.nil_append]
  rw [if_neg (by omega), ledgerSet_set]

lemma validateEmail_nil : validateEmail [] = false := rfl

lemma firstValidationError_eq_none_iff (name email message : JStr) :
    firstValidationError name email message = none ↔
      (2 ≤ name.length ∧ name.length ≤ 100 ∧ validateEmail email = true ∧
        10 ≤ message.length ∧ message.length ≤ 5000) := by
  unfold firstValidationError
  split_ifs with h1 h2 h3 h4 h5 h6 h7 h8 <;> simp_all <;> first
    | omega
    | (subst h2; simp [validateEmail_nil])

lemma classifyDispatchError_status (isDev : Bool) (code : Option JStr) (errMsg : JStr) :
    (classifyDispatchError isDev code errMsg).status = 500 ∨
    (classifyDispatchError isDev code errMsg).status = 503 := by
  cases code with
  | none => left; rfl
  | some c =>
    simp only [classifyDispatchError]
    by_cases h1 : c = codeEAUTH
    · rw [if_pos h1]; left; rfl
    · rw [if_neg h1]
      by_cases h2 : c = codeECONNREFUSED ∨ c = codeETIMEDOUT
      · rw [if_pos h2]; right; rfl
      · rw [if_neg h2]; left; rfl

lemma checkRateLimit_true_ledger (L : Ledger) (id : JStr) (max w now : Nat)
    (h : (checkRateLimit L id max w now).1 = true) :
    ledgerGet (checkRateLimit L id max w now).2 id =
      some ((((ledgerGet L id).getD []).filter (fun time => decide (now - time < w))) ++
        [now]) := by
  cases hget : ledgerGet L id with
  | none =>
    simp only [checkRateLimit, hget, ledgerGet_set_self, Option.getD_some,
      Option.getD_none, List.filter_nil, List.length_nil, List.nil_append] at h ⊢
    by_cases hc : max ≤ 0
    · rw [if_pos hc] at h; simp at h
    · rw [if_neg hc] at h ⊢
      simp only [ledgerSet_set, ledgerGet_set_self]
  | some l =>
    simp only [checkRateLimit, hget, Option.getD_some] at h ⊢
    by_cases hc : max ≤ (l.filter (fun time => decide (now - time < w))).length
    · rw [if_pos hc] at h; simp at h
    · rw [if_neg hc] at h ⊢
      simp only [ledgerGet_set_self]

lemma strStartsWith_append (pat rest : JStr) : strStartsWith pat (pat ++ rest) = true := by
  induction pat with
  | nil => rfl
  | cons p ps ih => simp [strStartsWith, ih]

lemma strContains_nil_pat (s : JStr) : strContains s [] = true := by
  induction s with
  | nil => rfl
  | cons a t ih => simp [strContains, strStartsWith]

lemma strContains_self_append (pat rest : JStr) : strContains (pat ++ rest) pat = true := by
  cases pat with
  | nil => exact strContains_nil_pat rest
  | cons p ps =>
    have h := strStartsWith_append (p :: ps) rest
    rw [List.cons_append] at h
    rw [List.cons_append]
    simp [strContains, h]

lemma strContains_append_left (pre s pat : JStr) (h : strContains s pat = true) :
    strContains (pre ++ s) pat = true := by
  induction pre with
  | nil => simpa using h
  | cons a t ih => simp [strContains, ih]

lemma validationOrder_eq (name email message : JStr) :
    firstValidationError name email message =
      Option.map errMessage (amendedOrderValidate name email message) := by
  unfold firstValidationError amendedOrderValidate
  split_ifs <;> simp_all [errMessage] <;> omega

/-- Request body of the timed-out-dispatch scenario: a valid submission. -/
def c1Body : ReqBody :=
  ⟨.str "Al".toList, .str "al@example.com".toList,
    .str "Hello, this is a test message.".toList⟩

/-- Environment of the timed-out-dispatch scenario: both credentials
present, production mode. -/
def c1Env : Env := ⟨some "owner@gmail.com".toList, some "secret".toList, false⟩

set_option maxRecDepth 4000 in
/-- Claim C1: a valid request whose dispatch race is won by the timeout
branch is answered with HTTP 500 and the generic failure message, not
with HTTP 503, because the race rejection carries no code property and
therefore misses the ECONNREFUSED and ETIMEDOUT branch of the catch
block.  The dispatch was attempted, so the request did reach sendMail. -/
theorem claim_c1_timeout_yields_500 :
    (sendEmailHandler (some c1Body) "ip1".toList c1Env [] 0 raceTimeoutOutcome []).resp =
        ⟨500, false, msgSendFailed, none⟩ ∧
    (sendEmailHandler (some c1Body) "ip1".toList c1Env [] 0 raceTimeoutOutcome
        []).dispatched.isSome = true := by
  constructor <;> decide

/-- Claim C2, counterexample: on the submission with name of length one
and empty email, the handler answers with the email-presence error while
the order the claim asserts would demand the name-length error first. -/
theorem claim_c2_counterexample :
    (sendEmailHandler
        (some ⟨.str "A".toList, .str "".toList, .str "hello there friend".toList⟩)
        "ip1".toList ⟨some "g@x.co".toList, some "pw".toList, false⟩ [] 0 .ok
        []).resp.message = msgEmailRequired ∧
    Option.map errMessage
        (claimOrderValidate "A".toList [] "hello there friend".toList) =
      some msgNameTooShort ∧
    msgNameTooShort ≠ msgEmailRequired := by
  refine ⟨by decide, by decide, by decide⟩

/-- Claim C2, amended: the handler returns the error of the first
failing check in the order name presence, email presence, name length,
email format, message presence, message length, leaving the rate-limit
map untouched and never reaching the dispatcher. -/
theorem claim_c2_validation_order (b : ReqBody) (clientIP : JStr) (env : Env) (L : Ledger)
    (now : Nat) (outcome : SendOutcome) (sentOn : JStr) (name email message : JStr)
    (err : ValidationError)
    (hn : name = trimL (sanitizeInput b.name))
    (he : email = toLowerStr (trimL (sanitizeInput b.email)))
    (hm : message = trimL (sanitizeInput b.message))
    (hv : amendedOrderValidate name email message = some err) :
    (sendEmailHandler (some b) clientIP env L now outcome sentOn).resp =
      ⟨400, false, errMessage err, none⟩ ∧
    (sendEmailHandler (some b) clientIP env L now outcome sentOn).dispatched = none ∧
    (sendEmailHandler (some b) clientIP env L now outcome sentOn).ledger = L := by
  subst hn he hm
  have hfv : firstValidationError (trimL (sanitizeInput b.name))
      (toLowerStr (trimL (sanitizeInput b.email)))
      (trimL (sanitizeInput b.message)) = some (errMessage err) := by
    rw [validationOrder_eq, hv]; rfl
  simp only [sendEmailHandler, hfv]
  refine ⟨?_, ?_, ?_⟩ <;> trivial

/-- Witness for claim C2: the amended order applied to the short-name
submission with an empty email gives exactly the email-presence
rejection. -/
theorem claim_c2_witness :
    (sendEmailHandler
        (some ⟨.str "A".toList, .str "".toList, .str "hello there friend".toList⟩)
        "ip1".toList ⟨some "g@x.co".toList, some "pw".toList, false⟩ [] 0 .ok
        []).resp = ⟨400, false, errMessage .emailRequired, none⟩ :=
  (claim_c2_validation_order
    ⟨.str "A".toList, .str "".toList, .str "hello there friend".toList⟩
    "ip1".toList ⟨some "g@x.co".toList, some "pw".toList, false⟩ [] 0 .ok []
    "A".toList [] "hello there friend".toList .emailRequired
    (by decide) (by decide) (by decide) (by decide)).1

/-- Claim C3, counterexample: the 5001-character string of 4999 letters,
a space and a final letter survives its first sanitization with 5000
characters ending in the space, and the second sanitization trims that
space away, so sanitize is not idempotent. -/
theorem claim_c3_counterexample :
    sanitizeInput (.str (sanitizeInput (.str s0))) ≠ sanitizeInput (.str s0) := by
  rw [sanitize_sanitize_s0, sanitize_s0]
  intro h
  have hlen := congrArg List.length h
  rw [charA_len, List.length_append, charA_len] at hlen
  norm_num at hlen

/-- Claim C3, amended: sanitize is idempotent on every input whose
trimmed form has at most 5000 characters, in particular whenever the
truncation does not cut the string. -/
theorem claim_c3_sanitize_idempotent (s : JStr) (h : (trimL s).length ≤ 5000) :
    sanitizeInput (.str (sanitizeInput (.str s))) = sanitizeInput (.str s) := by
  show (trimL ((trimL s).take 5000)).take 5000 = (trimL s).take 5000
  rw [List.take_of_length_le h, trimL_trimL, List.take_of_length_le h]

/-- Witness for claim C3: applying sanitize twice to a two-character
string changes nothing. -/
theorem claim_c3_witness :
    sanitizeInput (.str (sanitizeInput (.str "ab".toList))) =
      sanitizeInput (.str "ab".toList) :=
  claim_c3_sanitize_idempotent ("ab".toList) (by decide)

/-- Claim C4: starting from an absent entry, six allow calls with the
configured limit of five per hour whose timestamps all lie inside one
window yield five grants and then a denial, and a further call made a
full window after those calls is granted again. -/
theorem claim_c4_six_calls (id : JStr) (L0 : Ledger) (t1 t2 t3 t4 t5 t6 n7 : Nat)
    (h0 : ledgerGet L0 id = none)
    (h12 : t1 ≤ t2) (h23 : t2 ≤ t3) (h34 : t3 ≤ t4) (h45 : t4 ≤ t5) (h56 : t5 ≤ t6)
    (hwin : t6 < t1 + 3600000) (h7 : t6 + 3600000 ≤ n7) :
    (allowSeq L0 id [t1, t2, t3, t4, t5, t6]).1 =
      [true, true, true, true, true, false] ∧
    (checkRateLimit (allowSeq L0 id [t1, t2, t3, t4, t5, t6]).2 id 5 3600000 n7).1 =
      true := by
  have e1 : checkRateLimit L0 id 5 3600000 t1 = (true, ledgerSet L0 id [t1]) :=
    checkRateLimit_fresh L0 id 5 3600000 t1 h0 (by norm_num)
  have e2 : checkRateLimit (ledgerSet L0 id [t1]) id 5 3600000 t2 =
      (true, ledgerSet L0 id [t1, t2]) := by
    have := checkRateLimit_allow_set L0 id 5 3600000 t2 [t1]
      (by intro t ht; simp at ht; omega) (by simp)
    simpa using this
  have e3 : checkRateLimit (ledgerSet L0 id [t1, t2]) id 5 3600000 t3 =
      (true, ledgerSet L0 id [t1, t2, t3]) := by
    have := checkRateLimit_allow_set L0 id 5 3600000 t3 [t1, t2]
      (by intro t ht; simp at ht; rcases ht with rfl | rfl <;> omega) (by simp)
    simpa using this
  have e4 : checkRateLimit (ledgerSet L0 id [t1, t2, t3]) id 5 3600000 t4 =
      (true, ledgerSet L0 id [t1, t2, t3, t4]) := by
    have := checkRateLimit_allow_set L0 id 5 3600000 t4 [t1, t2, t3]
      (by intro t ht; simp at ht; rcases ht with rfl | rfl | rfl <;> omega) (by simp)
    simpa using this
  have e5 : checkRateLimit (ledgerSet L0 id [t1, t2, t3, t4]) id 5 3600000 t5 =
      (true, ledgerSet L0 id [t1, t2, t3, t4, t5]) := by
    have := checkRateLimit_allow_set L0 id 5 3600000 t5 [t1, t2, t3, t4]
      (by intro t ht; simp at ht; rcases ht with rfl | rfl | rfl | rfl <;> omega) (by simp)
    simpa using this
  have e6 : checkRateLimit (ledgerSet L0 id [t1, t2, t3, t4, t5]) id 5 3600000 t6 =
      (false, ledgerSet L0 id [t1, t2, t3, t4, t5]) :=
    checkRateLimit_deny (ledgerSet L0 id [t1, t2, t3, t4, t5]) id 5 3600000 t6
      [t1, t2, t3, t4, t5] (ledgerGet_set_self L0 id _)
      (by intro t ht; simp at ht; rcases ht with rfl | rfl | rfl | rfl | rfl <;> omega)
      (by simp)
  have e7 : checkRateLimit (ledgerSet L0 id [t1, t2, t3, t4, t5]) id 5 3600000 n7 =
      (true, ledgerSet L0 id [n7]) :=
    checkRateLimit_expired_set L0 id 5 3600000 n7 [t1, t2, t3, t4, t5]
      (by intro t ht; simp at ht; rcases ht with rfl | rfl | rfl | rfl | rfl <;> omega)
      (by norm_num)
  simp only [allowSeq, e1, e2, e3, e4, e5, e6, e7]
  exact ⟨trivial, trivial⟩

/-- Witness for claim C4: the concrete run at timestamps zero to five
with the follow-up call one window later. -/
theorem claim_c4_witness :
    (allowSeq [] ("ip1".toList) [0, 1, 2, 3, 4, 5]).1 =
      [true, true, true, true, true, false] ∧
    (checkRateLimit (allowSeq [] ("ip1".toList) [0, 1, 2, 3, 4, 5]).2 ("ip1".toList) 5
      3600000 3600005).1 = true :=
  claim_c4_six_calls ("ip1".toList) [] 0 1 2 3 4 5 3600005 rfl (by norm_num)
    (by norm_num) (by norm_num) (by norm_num) (by norm_num) (by norm_num) (by norm_num)

/-- Claim C5: when the timestamps of an identifier that fall inside the
window already reach the (positive) limit, the call denies and returns
the map unchanged. -/
theorem claim_c5_deny_no_mutation (L : Ledger) (id : JStr) (maxRequests windowMs now : Nat)
    (hmax : 0 < maxRequests)
    (hcount : maxRequests ≤
      (((ledgerGet L id).getD []).filter
        (fun time => decide (now - time < windowMs))).length) :
    checkRateLimit L id maxRequests windowMs now = (false, L) := by
  cases hget : ledgerGet L id with
  | none =>
    rw [hget] at hcount
    simp at hcount
    omega
  | some l =>
    rw [hget] at hcount
    simp only [Option.getD_some] at hcount
    simp only [checkRateLimit, hget, Option.getD_some]
    rw [if_pos hcount]

/-- Witness for claim C5: an identifier with five stored in-window
timestamps is denied and the map is returned as it was. -/
theorem claim_c5_witness :
    checkRateLimit [(("ip1".toList), [0, 0, 0, 0, 0])] ("ip1".toList) 5 3600000 10 =
      (false, [(("ip1".toList), [0, 0, 0, 0, 0])]) :=
  claim_c5_deny_no_mutation [(("ip1".toList), [0, 0, 0, 0, 0])] ("ip1".toList) 5 3600000
    10 (by norm_num) (by decide)

set_option maxRecDepth 8000 in
/-- Claim C6: validateEmail accepts exactly the strings whose trimmed
lowercased form decomposes into three non-empty blocks free of
whitespace and at signs joined by one at sign and one dot and has at
most 254 characters, and the three examples from the specification
evaluate as stated. -/
theorem claim_c6_validate_email :
    (∀ s : JStr, validateEmail s = true ↔
      EmailShape (toLowerStr (trimL s)) ∧ (toLowerStr (trimL s)).length ≤ 254) ∧
    validateEmail ("a@b.co".toList) = true ∧
    validateEmail ("not-an-email".toList) = false ∧
    validateEmail ("a@b.".toList ++ List.replicate 260 'c') = false := by
  refine ⟨validateEmail_iff, by decide, by decide, by decide⟩

/-- Witness for claim C6: the accepted example indeed has the shape and
the length bound the equivalence promises. -/
theorem claim_c6_witness :
    EmailShape (toLowerStr (trimL ("a@b.co".toList))) ∧
      (toLowerStr (trimL ("a@b.co".toList))).length ≤ 254 :=
  (claim_c6_validate_email.1 ("a@b.co".toList)).mp claim_c6_validate_email.2.1

/-- A name carrying a script tag, the injection probe of the escaping
claim. -/
def nameScript : JStr := "<script>alert(1)</script>".toList

set_option maxRecDepth 40000 in
/-- Claim C7: the HTML body of the constructed message embeds the
escaped name, the escaped email and the newline-converted escaped
message, the plain-text body embeds the three raw values, and on the
script-tag probe the HTML body carries the escaped tag and not the raw
tag while the plain-text body carries the raw tag. -/
theorem claim_c7_escaping :
    (∀ gmailEmail name email message sentOn : JStr,
      strContains (mkMailOptions gmailEmail name email message sentOn).html
        (escapeHtml name) = true ∧
      strContains (mkMailOptions gmailEmail name email message sentOn).html
        (escapeHtml email) = true ∧
      strContains (mkMailOptions gmailEmail name email message sentOn).html
        (newlineToBr (escapeHtml message)) = true ∧
      strContains (mkMailOptions gmailEmail name email message sentOn).text name = true ∧
      strContains (mkMailOptions gmailEmail name email message sentOn).text email = true ∧
      strContains (mkMailOptions gmailEmail name email message sentOn).text message
        = true) ∧
    strContains (mkMailOptions "g@x.co".toList nameScript "a@b.co".toList
        "hello there friend".toList "Jan 1".toList).html "&lt;script&gt;".toList = true ∧
    strContains (mkMailOptions "g@x.co".toList nameScript "a@b.co".toList
        "hello there friend".toList "Jan 1".toList).html "<script>".toList = false ∧
    strContains (mkMailOptions "g@x.co".toList nameScript "a@b.co".toList
        "hello there friend".toList "Jan 1".toList).text "<script>".toList = true := by
  refine ⟨?_, by decide, by decide, by decide⟩
  intro gmailEmail name email message sentOn
  simp only [mkMailOptions, List.append_assoc]
  refine ⟨?_, ?_, ?_, ?_, ?_, ?_⟩
  · exact strContains_append_left htmlPart1 _ _ (strContains_self_append _ _)
  · exact strContains_append_left htmlPart1 _ _ (strContains_append_left _ _ _
      (strContains_append_left htmlPart2 _ _ (strContains_self_append _ _)))
  · exact strContains_append_left htmlPart1 _ _ (strContains_append_left _ _ _
      (strContains_append_left htmlPart2 _ _ (strContains_append_left _ _ _
        (strContains_append_left htmlPart3 _ _ (strContains_self_append _ _)))))
  · exact strContains_append_left textPart1 _ _ (strContains_self_append _ _)
  · exact strContains_append_left textPart1 _ _ (strContains_append_left _ _ _
      (strContains_append_left textPart2 _ _ (strContains_self_append _ _)))
  · exact strContains_append_left textPart1 _ _ (strContains_append_left _ _ _
      (strContains_append_left textPart2 _ _ (strContains_append_left _ _ _
        (strContains_append_left textPart3 _ _ (strContains_self_append _ _)))))

/-- Claim C8: the dispatcher is reached only when the three sanitized
fields satisfy their bounds, and a submission with a field out of bounds
is answered with HTTP 400 and never dispatched. -/
theorem claim_c8_bounds_before_dispatch (b : ReqBody) (clientIP : JStr) (env : Env)
    (L : Ledger) (now : Nat) (outcome : SendOutcome) (sentOn : JStr)
    (name email message : JStr)
    (hn : name = trimL (sanitizeInput b.name))
    (he : email = toLowerStr (trimL (sanitizeInput b.email)))
    (hm : message = trimL (sanitizeInput b.message)) :
    ((sendEmailHandler (some b) clientIP env L now outcome sentOn).dispatched.isSome =
        true →
      2 ≤ name.length ∧ name.length ≤ 100 ∧ validateEmail email = true ∧
        10 ≤ message.length ∧ message.length ≤ 5000) ∧
    (¬ (2 ≤ name.length ∧ name.length ≤ 100 ∧ validateEmail email = true ∧
        10 ≤ message.length ∧ message.length ≤ 5000) →
      (sendEmailHandler (some b) clientIP env L now outcome sentOn).resp.status = 400 ∧
      (sendEmailHandler (some b) clientIP env L now outcome sentOn).dispatched = none) := by
  subst hn he hm
  simp only [sendEmailHandler]
  cases hv : firstValidationError (trimL (sanitizeInput b.name))
      (toLowerStr (trimL (sanitizeInput b.email))) (trimL (sanitizeInput b.message)) with
  | some err =>
    constructor
    · intro h; simp at h
    · intro _; exact ⟨rfl, rfl⟩
  | none =>
    have hb := (firstValidationError_eq_none_iff _ _ _).mp hv
    constructor
    · intro _; exact hb
    · intro hcon; exact absurd hb hcon

/-- Witness for claim C8: the one-letter name is rejected with HTTP 400
and no dispatch happens. -/
theorem claim_c8_witness :
    (sendEmailHandler
        (some ⟨.str "A".toList, .str "a@b.co".toList, .str "hello there friend".toList⟩)
        "ip1".toList ⟨some "g@x.co".toList, some "pw".toList, false⟩ [] 0 .ok
        []).resp.status = 400 ∧
    (sendEmailHandler
        (some ⟨.str "A".toList, .str "a@b.co".toList, .str "hello there friend".toList⟩)
        "ip1".toList ⟨some "g@x.co".toList, some "pw".toList, false⟩ [] 0 .ok
        []).dispatched = none :=
  (claim_c8_bounds_before_dispatch
    ⟨.str "A".toList, .str "a@b.co".toList, .str "hello there friend".toList⟩
    "ip1".toList ⟨some "g@x.co".toList, some "pw".toList, false⟩ [] 0 .ok []
    "A".toList "a@b.co".toList "hello there friend".toList
    (by decide) (by decide) (by decide)).2 (by decide)

/-- Claim C9: every request answered with HTTP 400 leaves the
rate-limit map exactly as it was, because all validation runs before the
rate-limit gate. -/
theorem claim_c9_validation_preserves_ledger (body : Option ReqBody) (clientIP : JStr)
    (env : Env) (L : Ledger) (now : Nat) (outcome : SendOutcome) (sentOn : JStr)
    (h : (sendEmailHandler body clientIP env L now outcome sentOn).resp.status = 400) :
    (sendEmailHandler body clientIP env L now outcome sentOn).ledger = L := by
  cases body with
  | none => rfl
  | some b =>
    simp only [sendEmailHandler] at h ⊢
    cases hv : firstValidationError (trimL (sanitizeInput b.name))
        (toLowerStr (trimL (sanitizeInput b.email))) (trimL (sanitizeInput b.message)) with
    | some err => rfl
    | none =>
      rw [hv] at h
      simp only at h
      by_cases hrl : (checkRateLimit L clientIP 5 3600000 now).1 = false
      · rw [if_pos hrl] at h; simp at h
      · rw [if_neg hrl] at h
        by_cases henv : (envMissing env.gmailEmail || envMissing env.gmailPassword) = true
        · rw [if_pos henv] at h; simp at h
        · rw [if_neg henv] at h
          cases outcome with
          | ok => simp at h
          | fail code errMsg =>
            simp only at h
            rcases classifyDispatchError_status env.isDev code errMsg with hs | hs <;>
              rw [hs] at h <;> simp at h

/-- Witness for claim C9: a rejected one-letter name leaves the empty
map empty. -/
theorem claim_c9_witness :
    (sendEmailHandler
        (some ⟨.str "A".toList, .str "a@b.co".toList, .str "hello there friend".toList⟩)
        "ip1".toList ⟨some "g@x.co".toList, some "pw".toList, false⟩ [] 5 .ok
        []).ledger = [] :=
  claim_c9_validation_preserves_ledger
    (some ⟨.str "A".toList, .str "a@b.co".toList, .str "hello there friend".toList⟩)
    "ip1".toList ⟨some "g@x.co".toList, some "pw".toList, false⟩ [] 5 .ok []
    (by decide)

/-- Claim C10: a request answered with HTTP 500 or HTTP 503 passed the
rate-limit gate, so the map afterwards holds the in-window timestamps of
the client with the current instant appended; the failed dispatch or
credential check rolls nothing back. -/
theorem claim_c10_no_rollback (body : Option ReqBody) (clientIP : JStr) (env : Env)
    (L : Ledger) (now : Nat) (outcome : SendOutcome) (sentOn : JStr)
    (h : (sendEmailHandler body clientIP env L now outcome sentOn).resp.status = 500 ∨
         (sendEmailHandler body clientIP env L now outcome sentOn).resp.status = 503) :
    ledgerGet (sendEmailHandler body clientIP env L now outcome sentOn).ledger clientIP =
      some ((((ledgerGet L clientIP).getD []).filter
        (fun time => decide (now - time < 3600000))) ++ [now]) := by
  cases body with
  | none => simp [sendEmailHandler] at h
  | some b =>
    simp only [sendEmailHandler] at h ⊢
    cases hv : firstValidationError (trimL (sanitizeInput b.name))
        (toLowerStr (trimL (sanitizeInput b.email))) (trimL (sanitizeInput b.message)) with
    | some err => rw [hv] at h; simp at h
    | none =>
      rw [hv] at h
      simp only at h ⊢
      by_cases hrl : (checkRateLimit L clientIP 5 3600000 now).1 = false
      · rw [if_pos hrl] at h; simp at h
      · have hrl' : (checkRateLimit L clientIP 5 3600000 now).1 = true := by
          simpa using hrl
        rw [if_neg hrl] at h ⊢
        have hled := checkRateLimit_true_ledger L clientIP 5 3600000 now hrl'
        by_cases henv : (envMissing env.gmailEmail || envMissing env.gmailPassword) = true
        · rw [if_pos henv]; exact hled
        · rw [if_neg henv] at h ⊢
          cases outcome with
          | ok => simp at h
          | fail code errMsg => exact hled

set_option maxRecDepth 4000 in
/-- Witness for claim C10: a valid request whose dispatch fails with the
timed-out code is answered with HTTP 503 and still deposits its
timestamp in the map. -/
theorem claim_c10_witness :
    ledgerGet (sendEmailHandler
        (some ⟨.str "Bo".toList, .str "bo@example.com".toList,
          .str "Hello there, testing this form.".toList⟩)
        "ip9".toList ⟨some "g@x.co".toList, some "pw".toList, false⟩ [] 7
        (.fail (some codeETIMEDOUT) "t".toList) []).ledger ("ip9".toList) =
      some [7] :=
  claim_c10_no_rollback
    (some ⟨.str "Bo".toList, .str "bo@example.com".toList,
      .str "Hello there, testing this form.".toList⟩)
    "ip9".toList ⟨some "g@x.co".toList, some "pw".toList, false⟩ [] 7
    (.fail (some codeETIMEDOUT) "t".toList) []
    (Or.inr (by decide))

end PortfolioBackend
